import Mathlib

/-!
Verification of the url-shortener service (src/src/main.rs) against its
specification. The in-memory dual-index cache, the request handlers
`redirect` and `shorten`, and the background sweeper `clean_cache` /
`prune_cache_if_needed` are shallowly embedded below; `DateTime<Utc>`
instants are modelled as integer timestamps (seconds), and each `DashMap`
as an association list.
-/

namespace UrlShortener

/-- The `Record` struct of src/src/main.rs: one URL mapping together with
its expiration instant. -/
structure Record where
  id : String
  url : String
  expirationDate : Int
deriving DecidableEq

/-- The `Cache` struct of src/src/main.rs: a map from ids to records and a
map from full URLs to records, each modelled as an association list. -/
structure Cache where
  cacheById : List (String × Record)
  cacheByUrl : List (String × Record)
deriving DecidableEq

/-- `DashMap::get`, on the association-list model. -/
def mapGet (m : List (String × Record)) (k : String) : Option Record :=
  (m.find? (fun e => e.1 == k)).map (fun e => e.2)

/-- `DashMap::insert`: replaces any existing entry for the key. -/
def mapInsert (m : List (String × Record)) (k : String) (v : Record) :
    List (String × Record) :=
  (k, v) :: m.filter (fun e => e.1 != k)

/-- `DashMap::remove`. -/
def mapRemove (m : List (String × Record)) (k : String) : List (String × Record) :=
  m.filter (fun e => e.1 != k)

/-- `DashMap::len`. -/
def mapLen (m : List (String × Record)) : Nat := m.length

/-- The durable store: the rows of the `urls` table. -/
abbrev Store := List Record

/-- `SELECT url FROM urls WHERE id = $1` with `fetch_one`: the url of the
first matching row, or absent (`RowNotFound`). -/
def dbFetchUrlById (s : Store) (id : String) : Option String :=
  (s.find? (fun r => r.id == id)).map (fun r => r.url)

/-- `SELECT EXISTS(SELECT 1 FROM urls WHERE url = $1)`. -/
def dbExistsUrl (s : Store) (url : String) : Bool :=
  s.any (fun r => r.url == url)

/-- `SELECT id FROM urls WHERE url = $1` with `fetch_one`. -/
def dbSelectIdByUrl (s : Store) (url : String) : Option String :=
  (s.find? (fun r => r.url == url)).map (fun r => r.id)

/-- Number of rows the store holds for a given locator. -/
def dbCountUrl (s : Store) (url : String) : Nat :=
  (s.filter (fun r => r.url == url)).length

/-- Store-side error taxonomy relevant to the claims. -/
inductive DbErr
  | constraintViolation
deriving DecidableEq

/-- Modelled from the spec: the `urls` table's uniqueness backstop on the
locator ("the store adapter's uniqueness constraint (external) is the only
backstop against duplicate records") — the table schema itself is not part
of src/. `INSERT INTO urls(id, url, expiration_date) VALUES ($1, $2, $3)`
fails with a constraint violation iff a row for the locator already exists,
and otherwise appends the row. -/
def dbInsertUrls (s : Store) (r : Record) : Except DbErr Store :=
  if dbExistsUrl s r.url then Except.error DbErr.constraintViolation
  else Except.ok (s ++ [r])

/-- The HTTP statuses the handlers can return. -/
inductive Status
  | notFound
  | internalServerError
deriving DecidableEq

/-- `chrono::Duration::hours(24)` in seconds: the live-time granted to a
freshly cached record. -/
def hours24 : Int := 86400

/-- The fixed base of every successful `shorten` response. -/
def shortBase : String := "https://shortrl.shuttleapp.rs/"

/-- The `redirect` handler (src/src/main.rs lines 70-103): look the id up in
`cache_by_id` and, on a hit, redirect to the cached url without any further
check; on a miss query the store, return `NotFound` when the row is absent,
and otherwise cache the fetched record — by id only — with expiration
`now + 24h` and redirect. The redirect target is modelled as the url
string; `now` models `Utc::now()`. -/
def redirect (id : String) (store : Store) (now : Int) (cache : Cache) :
    Except Status String × Cache :=
  match mapGet cache.cacheById id with
  | some record => (Except.ok record.url, cache)
  | none =>
    match dbFetchUrlById store id with
    | none => (Except.error Status.notFound, cache)
    | some url =>
      let record : Record := ⟨id, url, now + hours24⟩
      (Except.ok url, { cache with cacheById := mapInsert cache.cacheById id record })

deriving instance DecidableEq for Except

/-- Everything a `shorten` call produces: the HTTP response, the cache
afterwards, the store afterwards, and the number of `INSERT` statements it
executed. -/
structure ShortenOut where
  response : Except Status String
  cache : Cache
  store : Store
  creates : Nat
deriving DecidableEq

/-- The `shorten` handler (src/src/main.rs lines 121-182). The three store
arguments are the snapshots of the shared database observed by its three
queries (the EXISTS check, the id fetch, the INSERT), so interleaved
concurrent store writes can be expressed; a sequential call passes the same
store three times (`shortenSeq`). On a `cache_by_url` hit the cached id is
returned unchanged; on a store hit the id is fetched and cached in both
maps with expiration `now + 24h` (the store row is not touched); otherwise
the externally generated `newId` is inserted into the store and cached in
both maps. Every store error is mapped to `InternalServerError`, exactly as
the source's `map_err` does. -/
def shorten (url : String) (s1 s2 s3 : Store) (newId : String) (now : Int)
    (cache : Cache) : ShortenOut :=
  match mapGet cache.cacheByUrl url with
  | some record =>
    { response := Except.ok (shortBase ++ record.id)
      cache := cache, store := s1, creates := 0 }
  | none =>
    if dbExistsUrl s1 url then
      match dbSelectIdByUrl s2 url with
      | none =>
        { response := Except.error Status.internalServerError
          cache := cache, store := s2, creates := 0 }
      | some id0 =>
        let record : Record := ⟨id0, url, now + hours24⟩
        { response := Except.ok (shortBase ++ id0)
          cache := { cacheById := mapInsert cache.cacheById id0 record
                     cacheByUrl := mapInsert cache.cacheByUrl url record }
          store := s2, creates := 0 }
    else
      let record : Record := ⟨newId, url, now + hours24⟩
      match dbInsertUrls s3 record with
      | Except.error _ =>
        { response := Except.error Status.internalServerError
          cache := cache, store := s3, creates := 1 }
      | Except.ok s4 =>
        { response := Except.ok (shortBase ++ newId)
          cache := { cacheById := mapInsert cache.cacheById newId record
                     cacheByUrl := mapInsert cache.cacheByUrl url record }
          store := s4, creates := 1 }

/-- `shorten` run against a quiescent database: all three query snapshots
are the same store. -/
def shortenSeq (url : String) (s : Store) (newId : String) (now : Int)
    (cache : Cache) : ShortenOut :=
  shorten url s s s newId now cache

/-- `CACHE_MAX_SIZE` of `prune_cache_if_needed`. -/
def cacheMaxSize : Nat := 100

/-- The oldest-record scan inside `prune_cache_if_needed`:
`oldest_expiration` starts at the current time and the loop keeps the key
of the strictly smallest expiration seen so far. -/
def oldestScan (now : Int) (m : List (String × Record)) : Option String × Int :=
  m.foldl
    (fun acc e =>
      if e.2.expirationDate < acc.2 then (some e.1, e.2.expirationDate) else acc)
    (none, now)

/-- The first block of `prune_cache_if_needed` (src/src/main.rs lines
237-256): if `cache_by_id` exceeds the bound, scan it for the oldest
record, remove that key from `cache_by_id` and retain in `cache_by_url`
only the records whose id differs. -/
def pruneBlockById (now : Int) (cache : Cache) : Cache :=
  if cacheMaxSize < mapLen cache.cacheById then
    match (oldestScan now cache.cacheById).1 with
    | some key =>
      { cacheById := mapRemove cache.cacheById key
        cacheByUrl := cache.cacheByUrl.filter (fun e => e.2.id != key) }
    | none => cache
  else cache

/-- The second block of `prune_cache_if_needed` (src/src/main.rs lines
258-273): if `cache_by_url` exceeds the bound, scan it, remove that key
from `cache_by_url`, and then retain — again on `cache_by_url`, exactly as
the source does — only the records whose id differs from the removed key. -/
def pruneBlockByUrl (now : Int) (cache : Cache) : Cache :=
  if cacheMaxSize < mapLen cache.cacheByUrl then
    match (oldestScan now cache.cacheByUrl).1 with
    | some key =>
      { cache with
          cacheByUrl := (mapRemove cache.cacheByUrl key).filter (fun e => e.2.id != key) }
    | none => cache
  else cache

/-- `prune_cache_if_needed` (src/src/main.rs lines 234-274): the two size
blocks run in sequence. Both `Utc::now()` reads are modelled by `now`. -/
def pruneCacheIfNeeded (now : Int) (cache : Cache) : Cache :=
  pruneBlockByUrl now (pruneBlockById now cache)

/-- One tick of `clean_cache` (src/src/main.rs lines 208-228): retain in
both maps only the records whose expiration is still in the future, then
run `prune_cache_if_needed`. -/
def cleanCacheTick (now : Int) (cache : Cache) : Cache :=
  pruneCacheIfNeeded now
    { cacheById := cache.cacheById.filter (fun e => now < e.2.expirationDate)
      cacheByUrl := cache.cacheByUrl.filter (fun e => now < e.2.expirationDate) }

/-- Modelled from the spec: identifier generation is an external
collaborator (`nanoid::nanoid!(10)`, a library macro, not part of this
repository); it draws 10 characters from the nanoid alphabet. The seed
stands for the generator's randomness. -/
def nanoidAlphabet : List Char :=
  "useandom-26T198340PX75pxJACKVERYMINDBUSHWOLF_GQZbfghjklqvwyzrict".toList

/-- Modelled from the spec: the 10-character identifier produced by
`nanoid::nanoid!(10)` for a given random seed. -/
def nanoid10 (seed : Nat) : String :=
  String.mk ((List.range 10).map (fun i => nanoidAlphabet.getD ((seed / 64 ^ i) % 64) 'a'))

/-- A family of caches holding `n` distinct live records (every expiration
is strictly in the future at time 0), keyed by id. -/
def liveById (n : Nat) : List (String × Record) :=
  (List.range n).map (fun i => (toString i, ⟨toString i, "u" ++ toString i, Int.ofNat i + 1⟩))

/-- A family of url-keyed maps with `n` distinct records in which precisely
the first record is already expired at time 0. -/
def liveByUrl (n : Nat) : List (String × Record) :=
  (List.range n).map (fun i =>
    ("u" ++ toString i,
      ⟨"id" ++ toString i, "u" ++ toString i, if i = 0 then -5 else Int.ofNat i⟩))

section HelperLemmas

/-- Inserting under a key makes that key's lookup return the new value. -/
theorem mapGet_mapInsert_self (m : List (String × Record)) (k : String) (v : Record) :
    mapGet (mapInsert m k v) k = some v := by
  simp [mapGet, mapInsert, List.find?]

/-- A locator that exists in the store has at least one row. -/
theorem dbCountUrl_pos_of_exists {s : Store} {url : String}
    (h : dbExistsUrl s url = true) : 1 ≤ dbCountUrl s url := by
  rw [dbExistsUrl, List.any_eq_true] at h
  obtain ⟨r, hr, hp⟩ := h
  have : r ∈ s.filter (fun r => r.url == url) := List.mem_filter.mpr ⟨hr, hp⟩
  exact List.length_pos.mpr (List.ne_nil_of_mem this)

/-- A locator absent from the store has no rows. -/
theorem dbCountUrl_eq_zero_of_not_exists {s : Store} {url : String}
    (h : dbExistsUrl s url = false) : dbCountUrl s url = 0 := by
  rw [dbExistsUrl, List.any_eq_false] at h
  rw [dbCountUrl, List.length_eq_zero, List.filter_eq_nil_iff]
  exact h

/-- A locator that exists in the store yields some id on the id fetch. -/
theorem dbSelectIdByUrl_isSome_of_exists {s : Store} {url : String}
    (h : dbExistsUrl s url = true) : ∃ i, dbSelectIdByUrl s url = some i := by
  rw [dbExistsUrl, List.any_eq_true] at h
  rw [dbSelectIdByUrl]
  have : (s.find? (fun r => r.url == url)).isSome := List.find?_isSome.mpr h
  obtain ⟨r, hr⟩ := Option.isSome_iff_exists.mp this
  exact ⟨r.id, by rw [hr]; rfl⟩

/-- Row count after appending one row. -/
theorem dbCountUrl_append (s : Store) (r : Record) (url : String) :
    dbCountUrl (s ++ [r]) url
      = dbCountUrl s url + (if r.url == url then 1 else 0) := by
  rw [dbCountUrl, dbCountUrl, List.filter_append]
  by_cases h : r.url == url <;> simp [h]

end HelperLemmas

/-- C1 counterexample: with the identifier-index holding a record whose
expiration (-5) is already past at the current time 0 and the store empty,
the lookup still answers with the cached url as a hit instead of treating
the record as absent and falling through to the store. -/
theorem redirect_returns_expired_hit_cex :
    (redirect "abc" [] 0 ⟨[("abc", ⟨"abc", "u", -5⟩)], []⟩).1 = Except.ok "u" ∧
    (-5 : Int) < 0 ∧ dbFetchUrlById [] "abc" = none := by decide

/-- C1, amended: the cache-hit path of `redirect` returns the cached
record's url whenever the identifier-index holds a record for the id,
regardless of its expiration instant; an expired but not-yet-swept record
is served as a hit. -/
theorem redirect_hit_ignores_expiration (id : String) (store : Store) (now : Int)
    (cache : Cache) (r : Record) (h : mapGet cache.cacheById id = some r) :
    redirect id store now cache = (Except.ok r.url, cache) := by
  simp [redirect, h]

/-- Witness for C1's amended theorem at a concrete expired record. -/
theorem redirect_hit_ignores_expiration_witness :
    redirect "abc" [] 0 ⟨[("abc", ⟨"abc", "u", -5⟩)], []⟩
      = (Except.ok "u", ⟨[("abc", ⟨"abc", "u", -5⟩)], []⟩) :=
  redirect_hit_ignores_expiration "abc" [] 0 ⟨[("abc", ⟨"abc", "u", -5⟩)], []⟩
    ⟨"abc", "u", -5⟩ (by decide)

/-- C2 counterexample: a read-through fill after a store find populates the
identifier-index but leaves the locator-index without the record's twin. -/
theorem redirect_fill_missing_from_url_index_cex :
    (redirect "a" [⟨"a", "u", 50⟩] 0 ⟨[], []⟩).2.cacheById
        = [("a", ⟨"a", "u", 86400⟩)] ∧
    mapGet (redirect "a" [⟨"a", "u", 50⟩] 0 ⟨[], []⟩).2.cacheByUrl "u" = none := by decide

/-- C2, amended: the `redirect` read-through fill inserts the fetched
record, with expiration `now + 24h`, into the identifier-index only; the
locator-index is left exactly unchanged. -/
theorem redirect_fill_only_id_index (id url : String) (store : Store) (now : Int)
    (cache : Cache) (h1 : mapGet cache.cacheById id = none)
    (h2 : dbFetchUrlById store id = some url) :
    (redirect id store now cache).2.cacheById
        = mapInsert cache.cacheById id ⟨id, url, now + hours24⟩ ∧
    (redirect id store now cache).2.cacheByUrl = cache.cacheByUrl := by
  simp [redirect, h1, h2]

/-- Witness for C2's amended theorem at a concrete store row. -/
theorem redirect_fill_only_id_index_witness :
    (redirect "a" [⟨"a", "u", 50⟩] 0 ⟨[], []⟩).2.cacheById
        = mapInsert [] "a" ⟨"a", "u", 0 + hours24⟩ ∧
    (redirect "a" [⟨"a", "u", 50⟩] 0 ⟨[], []⟩).2.cacheByUrl = [] :=
  redirect_fill_only_id_index "a" "u" [⟨"a", "u", 50⟩] 0 ⟨[], []⟩ (by decide) (by decide)

/-- C9: a lookup on an empty cache for an id the store does not hold
reports not-found and returns the cache exactly unchanged — no
negative-caching entry is inserted. -/
theorem redirect_notfound_leaves_cache_unchanged (id : String) (s : Store) (now : Int)
    (h : dbFetchUrlById s id = none) :
    redirect id s now ⟨[], []⟩ = (Except.error Status.notFound, (⟨[], []⟩ : Cache)) := by
  simp [redirect, mapGet, h]

/-- Witness for C9 at id "zz9" against an empty store. -/
theorem redirect_notfound_leaves_cache_unchanged_witness :
    redirect "zz9" [] 0 ⟨[], []⟩ = (Except.error Status.notFound, (⟨[], []⟩ : Cache)) :=
  redirect_notfound_leaves_cache_unchanged "zz9" [] 0 (by decide)

set_option maxRecDepth 100000 in
/-- C3: the oldest-record scan starts from the current time and keeps only
strictly smaller expirations, so a prune pass over an identifier-index of
101 records that are all live (every expiration after time 0) removes
nothing at all, although the index exceeds the 100-entry bound — the
smallest-expiration live entry is never evicted. -/
theorem prune_never_evicts_live_entries_bug :
    cacheMaxSize < mapLen (liveById 101) ∧
    ((liveById 101).all (fun e => decide ((0 : Int) < e.2.expirationDate))) = true ∧
    pruneCacheIfNeeded 0 ⟨liveById 101, []⟩ = ⟨liveById 101, []⟩ := by decide

set_option maxRecDepth 100000 in
/-- C5: when the locator-index size block does remove an entry (here the
expired record keyed "u0" among 101 entries), the matched-id retain is run
on the locator-index again instead of the identifier-index, so the
identifier-index still holds the record whose id ("id0") matches the one
removed from the locator-index. -/
theorem prune_url_block_leaves_id_index_stale_bug :
    cacheMaxSize < mapLen (liveByUrl 101) ∧
    mapGet (pruneCacheIfNeeded 0 ⟨[("id0", ⟨"id0", "u0", -5⟩)], liveByUrl 101⟩).cacheByUrl
        "u0" = none ∧
    mapGet (pruneCacheIfNeeded 0 ⟨[("id0", ⟨"id0", "u0", -5⟩)], liveByUrl 101⟩).cacheById
        "id0" = some ⟨"id0", "u0", -5⟩ := by decide

set_option maxRecDepth 100000 in
/-- C4 counterexample: a tick over 102 live entries in each index leaves
all 102 in place — over the 100-entry bound — because the prune pass
cannot select any live record. -/
theorem tick_size_bound_violated_cex :
    mapLen ((cleanCacheTick 0 ⟨liveById 102, liveById 102⟩).cacheById) = 102 ∧
    mapLen ((cleanCacheTick 0 ⟨liveById 102, liveById 102⟩).cacheByUrl) = 102 ∧
    ¬ (102 ≤ cacheMaxSize) := by decide

/-- Entries surviving the first prune block's identifier-index were already
in the identifier-index. -/
theorem pruneBlockById_subset_byId (now : Int) (c : Cache) (e : String × Record)
    (h : e ∈ (pruneBlockById now c).cacheById) : e ∈ c.cacheById := by
  unfold pruneBlockById at h
  split at h
  · split at h
    · simp only [mapRemove] at h
      exact List.mem_of_mem_filter h
    · exact h
  · exact h

/-- Entries surviving the first prune block's locator-index were already in
the locator-index. -/
theorem pruneBlockById_subset_byUrl (now : Int) (c : Cache) (e : String × Record)
    (h : e ∈ (pruneBlockById now c).cacheByUrl) : e ∈ c.cacheByUrl := by
  unfold pruneBlockById at h
  split at h
  · split at h
    · exact List.mem_of_mem_filter h
    · exact h
  · exact h

/-- The second prune block never touches the identifier-index. -/
theorem pruneBlockByUrl_subset_byId (now : Int) (c : Cache) (e : String × Record)
    (h : e ∈ (pruneBlockByUrl now c).cacheById) : e ∈ c.cacheById := by
  unfold pruneBlockByUrl at h
  split at h
  · split at h
    · exact h
    · exact h
  · exact h

/-- Entries surviving the second prune block's locator-index were already
in the locator-index. -/
theorem pruneBlockByUrl_subset_byUrl (now : Int) (c : Cache) (e : String × Record)
    (h : e ∈ (pruneBlockByUrl now c).cacheByUrl) : e ∈ c.cacheByUrl := by
  unfold pruneBlockByUrl at h
  split at h
  · split at h
    · simp only [mapRemove] at h
      exact List.mem_of_mem_filter (List.mem_of_mem_filter h)
    · exact h
  · exact h

/-- A full prune pass only ever removes identifier-index entries. -/
theorem prune_subset_byId (now : Int) (c : Cache) (e : String × Record)
    (h : e ∈ (pruneCacheIfNeeded now c).cacheById) : e ∈ c.cacheById :=
  pruneBlockById_subset_byId now c e
    (pruneBlockByUrl_subset_byId now (pruneBlockById now c) e h)

/-- A full prune pass only ever removes locator-index entries. -/
theorem prune_subset_byUrl (now : Int) (c : Cache) (e : String × Record)
    (h : e ∈ (pruneCacheIfNeeded now c).cacheByUrl) : e ∈ c.cacheByUrl :=
  pruneBlockById_subset_byUrl now c e
    (pruneBlockByUrl_subset_byUrl now (pruneBlockById now c) e h)

/-- C4, amended: after a sweeper tick every record remaining in either
index is unexpired (its expiration is after the tick's time); the 100-entry
size bound, however, is not re-established by the tick (see the
counterexample with 102 live entries). -/
theorem tick_leaves_only_unexpired (now : Int) (cache : Cache) :
    ((cleanCacheTick now cache).cacheById.all
        (fun e => decide (now < e.2.expirationDate))) = true ∧
    ((cleanCacheTick now cache).cacheByUrl.all
        (fun e => decide (now < e.2.expirationDate))) = true := by
  unfold cleanCacheTick
  constructor
  · rw [List.all_eq_true]
    intro e he
    have h1 := prune_subset_byId now _ e he
    exact (List.mem_filter.mp h1).2
  · rw [List.all_eq_true]
    intro e he
    have h1 := prune_subset_byUrl now _ e he
    exact (List.mem_filter.mp h1).2

/-- Two sequential Create-or-reuse calls for the same locator: the second
call runs against the cache and the store produced by the first. -/
def shortenTwice (url : String) (s : Store) (id1 id2 : String) (now1 now2 : Int)
    (cache : Cache) : ShortenOut × ShortenOut :=
  (shortenSeq url s id1 now1 cache,
   shortenSeq url (shortenSeq url s id1 now1 cache).store id2 now2
     (shortenSeq url s id1 now1 cache).cache)

/-- C6: calling Create-or-reuse twice in sequence with the same locator —
given a sane start (at most one store row for the locator, and a cached
locator entry only if the store knows the locator) — produces the same
successful response from both calls, issues at most one store create
between them, and leaves the store with exactly one row for the locator. -/
theorem shorten_dedup_idempotent (url : String) (s : Store) (id1 id2 : String)
    (now1 now2 : Int) (cache : Cache)
    (hcount : dbCountUrl s url ≤ 1)
    (hsane : ∀ r, mapGet cache.cacheByUrl url = some r → dbExistsUrl s url = true) :
    (shortenTwice url s id1 id2 now1 now2 cache).2.response
        = (shortenTwice url s id1 id2 now1 now2 cache).1.response ∧
    (∃ i, (shortenTwice url s id1 id2 now1 now2 cache).1.response
        = Except.ok (shortBase ++ i)) ∧
    (shortenTwice url s id1 id2 now1 now2 cache).1.creates
        + (shortenTwice url s id1 id2 now1 now2 cache).2.creates ≤ 1 ∧
    dbCountUrl (shortenTwice url s id1 id2 now1 now2 cache).2.store url = 1 := by
  cases hget : mapGet cache.cacheByUrl url with
  | some r =>
    have hex := hsane r hget
    have h1 := dbCountUrl_pos_of_exists hex
    refine ⟨?_, ⟨r.id, ?_⟩, ?_, ?_⟩ <;>
      simp [shortenTwice, shortenSeq, shorten, hget] <;> omega
  | none =>
    cases hex : dbExistsUrl s url with
    | true =>
      obtain ⟨i, hi⟩ := dbSelectIdByUrl_isSome_of_exists hex
      have h1 := dbCountUrl_pos_of_exists hex
      refine ⟨?_, ⟨i, ?_⟩, ?_, ?_⟩ <;>
        simp [shortenTwice, shortenSeq, shorten, hget, hex, hi,
          mapGet_mapInsert_self] <;> omega
    | false =>
      have h0 := dbCountUrl_eq_zero_of_not_exists hex
      refine ⟨?_, ⟨id1, ?_⟩, ?_, ?_⟩ <;>
        simp [shortenTwice, shortenSeq, shorten, hget, hex, dbInsertUrls,
          mapGet_mapInsert_self, dbCountUrl_append] <;> omega

/-- Witness for C6 from an empty cache and store. -/
theorem shorten_dedup_idempotent_witness :
    (shortenTwice "https://example.com/x" [] "abcdefghij" "zz" 0 0 ⟨[], []⟩).2.response
        = (shortenTwice "https://example.com/x" [] "abcdefghij" "zz" 0 0 ⟨[], []⟩).1.response ∧
    (∃ i, (shortenTwice "https://example.com/x" [] "abcdefghij" "zz" 0 0 ⟨[], []⟩).1.response
        = Except.ok (shortBase ++ i)) ∧
    (shortenTwice "https://example.com/x" [] "abcdefghij" "zz" 0 0 ⟨[], []⟩).1.creates
        + (shortenTwice "https://example.com/x" [] "abcdefghij" "zz" 0 0 ⟨[], []⟩).2.creates
        ≤ 1 ∧
    dbCountUrl (shortenTwice "https://example.com/x" [] "abcdefghij" "zz" 0 0 ⟨[], []⟩).2.store
        "https://example.com/x" = 1 :=
  shorten_dedup_idempotent "https://example.com/x" [] "abcdefghij" "zz" 0 0 ⟨[], []⟩
    (by decide) (fun r hr => by simp [mapGet] at hr)

/-- C7 counterexample: on a cache miss with the locator already in the
store (expiration 100), Create-or-reuse returns the existing id but the
store row keeps its old expiration — it is not extended to the fresh
`now + 24h` instant the cache entry receives. -/
theorem shorten_reuse_leaves_store_expiration_cex :
    (shortenSeq "u" [⟨"i", "u", 100⟩] "x" 0 ⟨[], []⟩).response
        = Except.ok (shortBase ++ "i") ∧
    (shortenSeq "u" [⟨"i", "u", 100⟩] "x" 0 ⟨[], []⟩).store = [⟨"i", "u", 100⟩] ∧
    (100 : Int) < 0 + hours24 := by decide

/-- C7, amended: on a cache miss with the locator found in the store,
Create-or-reuse returns the existing id and caches a record with the fresh
expiration `now + 24h` in both indices, but leaves the store — and hence
the stored expiration — exactly unchanged. -/
theorem shorten_reuse_refreshes_cache_only (url id0 newId : String) (s : Store)
    (now : Int) (cache : Cache)
    (h1 : mapGet cache.cacheByUrl url = none)
    (h2 : dbExistsUrl s url = true)
    (h3 : dbSelectIdByUrl s url = some id0) :
    (shortenSeq url s newId now cache).response = Except.ok (shortBase ++ id0) ∧
    (shortenSeq url s newId now cache).store = s ∧
    mapGet (shortenSeq url s newId now cache).cache.cacheByUrl url
        = some ⟨id0, url, now + hours24⟩ ∧
    mapGet (shortenSeq url s newId now cache).cache.cacheById id0
        = some ⟨id0, url, now + hours24⟩ := by
  simp [shortenSeq, shorten, h1, h2, h3, mapGet_mapInsert_self]

/-- Witness for C7's amended theorem at a concrete store row. -/
theorem shorten_reuse_refreshes_cache_only_witness :
    (shortenSeq "u" [⟨"i", "u", 100⟩] "x" 0 ⟨[], []⟩).response
        = Except.ok (shortBase ++ "i") ∧
    (shortenSeq "u" [⟨"i", "u", 100⟩] "x" 0 ⟨[], []⟩).store = [⟨"i", "u", 100⟩] ∧
    mapGet (shortenSeq "u" [⟨"i", "u", 100⟩] "x" 0 ⟨[], []⟩).cache.cacheByUrl "u"
        = some ⟨"i", "u", 0 + hours24⟩ ∧
    mapGet (shortenSeq "u" [⟨"i", "u", 100⟩] "x" 0 ⟨[], []⟩).cache.cacheById "i"
        = some ⟨"i", "u", 0 + hours24⟩ :=
  shorten_reuse_refreshes_cache_only "u" "i" "x" [⟨"i", "u", 100⟩] 0 ⟨[], []⟩
    (by decide) (by decide) (by decide)

/-- C8 counterexample: a concurrent winner put a row for "u" (with id "w")
into the store between `shorten`'s EXISTS check and its INSERT; the create
fails with the uniqueness-constraint violation, the existing id "w" is
available for a re-read, yet the handler answers InternalServerError
instead of the existing id. -/
theorem shorten_constraint_violation_not_retried_cex :
    dbInsertUrls [⟨"w", "u", 5⟩] ⟨"x", "u", 86400⟩
        = Except.error DbErr.constraintViolation ∧
    dbSelectIdByUrl [⟨"w", "u", 5⟩] "u" = some "w" ∧
    (shorten "u" [] [] [⟨"w", "u", 5⟩] "x" 0 ⟨[], []⟩).response
        = Except.error Status.internalServerError := by decide

/-- C8, amended: when the store create fails (here because a concurrent
duplicate create won the race and the locator now exists in the INSERT
snapshot), the handler surfaces InternalServerError to the caller and
leaves the cache unchanged; it does not retry as a lookup. -/
theorem shorten_create_failure_returns_500 (url newId : String) (s1 s2 s3 : Store)
    (now : Int) (cache : Cache)
    (h1 : mapGet cache.cacheByUrl url = none)
    (h2 : dbExistsUrl s1 url = false)
    (h3 : dbExistsUrl s3 url = true) :
    (shorten url s1 s2 s3 newId now cache).response
        = Except.error Status.internalServerError ∧
    (shorten url s1 s2 s3 newId now cache).cache = cache := by
  simp [shorten, h1, h2, dbInsertUrls, h3]

/-- Witness for C8's amended theorem at a concrete lost race. -/
theorem shorten_create_failure_returns_500_witness :
    (shorten "u" [] [] [⟨"w", "u", 5⟩] "x" 0 ⟨[], []⟩).response
        = Except.error Status.internalServerError ∧
    (shorten "u" [] [] [⟨"w", "u", 5⟩] "x" 0 ⟨[], []⟩).cache = ⟨[], []⟩ :=
  shorten_create_failure_returns_500 "u" "x" [] [] [⟨"w", "u", 5⟩] 0 ⟨[], []⟩
    (by decide) (by decide) (by decide)

/-- The modelled nanoid generator always yields a 10-character identifier. -/
theorem nanoid10_length (seed : Nat) : (nanoid10 seed).length = 10 := rfl

/-- A successful `shorten` response always reads the short base followed by
the id of the record the locator-index then holds for the url. -/
theorem shorten_ok_shape (url : String) (s1 s2 s3 : Store) (newId : String)
    (now : Int) (cache : Cache) (r : String)
    (h : (shorten url s1 s2 s3 newId now cache).response = Except.ok r) :
    ∃ rec, mapGet (shorten url s1 s2 s3 newId now cache).cache.cacheByUrl url
        = some rec ∧ r = shortBase ++ rec.id := by
  cases hget : mapGet cache.cacheByUrl url with
  | some rec =>
    refine ⟨rec, ?_, ?_⟩
    · simp [shorten, hget]
    · simp [shorten, hget] at h
      exact h.symm
  | none =>
    cases hex : dbExistsUrl s1 url with
    | true =>
      cases hsel : dbSelectIdByUrl s2 url with
      | none => simp [shorten, hget, hex, hsel] at h
      | some id0 =>
        refine ⟨⟨id0, url, now + hours24⟩, ?_, ?_⟩
        · simp [shorten, hget, hex, hsel, mapGet_mapInsert_self]
        · simp [shorten, hget, hex, hsel] at h
          exact h.symm
    | false =>
      cases hins : dbInsertUrls s3 ⟨newId, url, now + hours24⟩ with
      | error e => simp [shorten, hget, hex, hins] at h
      | ok s4 =>
        refine ⟨⟨newId, url, now + hours24⟩, ?_, ?_⟩
        · simp [shorten, hget, hex, hins, mapGet_mapInsert_self]
        · simp [shorten, hget, hex, hins] at h
          exact h.symm

/-- C10: every successful Create-or-reuse response is the fixed base
"https://shortrl.shuttleapp.rs/" followed immediately by the id of the
mapping the locator-index then holds for the submitted url, and the freshly
generated identifier (`nanoid!(10)`, modelled by `nanoid10`) is exactly 10
characters long. -/
theorem shorten_response_base_and_id_length (url : String) (s : Store) (seed : Nat)
    (now : Int) (cache : Cache) (r : String)
    (h : (shortenSeq url s (nanoid10 seed) now cache).response = Except.ok r) :
    (∃ rec, mapGet (shortenSeq url s (nanoid10 seed) now cache).cache.cacheByUrl url
        = some rec ∧ r = shortBase ++ rec.id) ∧
    (nanoid10 seed).length = 10 :=
  ⟨shorten_ok_shape url s s s (nanoid10 seed) now cache r h, nanoid10_length seed⟩

/-- Witness for C10 on a fresh creation with seed 0. -/
theorem shorten_response_base_and_id_length_witness :
    (∃ rec, mapGet (shortenSeq "https://example.com/x" [] (nanoid10 0) 0
          ⟨[], []⟩).cache.cacheByUrl "https://example.com/x" = some rec ∧
        "https://shortrl.shuttleapp.rs/uuuuuuuuuu" = shortBase ++ rec.id) ∧
    (nanoid10 0).length = 10 :=
  shorten_response_base_and_id_length "https://example.com/x" [] 0 0 ⟨[], []⟩
    "https://shortrl.shuttleapp.rs/uuuuuuuuuu" (by decide)

end UrlShortener
